import Mathlib

/-!
A shallow embedding of the precipitation-field importers of `io/importers.py`
(`import_pgm`, `import_aqc`, `import_bom_rf3` and their helpers), together with
theorems checking the specification's claims against it.

Modelling conventions:
* Python strings are `List Char` (`PyStr`); `str.strip`, `str.split(sep)` and
  friends are re-implemented with Python's semantics so that they evaluate.
* A text file opened for reading is a `List PyStr` of its lines, without the
  trailing newline; `readline` pops the head and returns the empty string `[]`
  at end of stream, exactly like Python's `readline` returns `""` at EOF.
  A mid-file empty line is stored as `[]` too and its Python first character
  (the one of `"\n"`) is produced by `lineFirstChar`.
* float arithmetic is modelled exactly: `ℚ` where the code only does affine
  arithmetic and `ℝ` where it takes real powers; the not-a-number marker
  (`np.nan`) is `none` in an `Option` carrying the numeric payload.
* A raised Python exception is `Except.error` carrying a `PyErr`; constructor
  names follow the importer error model of the specification where it names
  the condition (`missingDependency`, `parseError`, `unsupportedProjection`)
  and the Python exception class otherwise.
-/

/-- Python exception outcomes of the importer code. -/
inductive PyErr where
  /-- `raise Exception("... not imported")` on a missing optional dependency. -/
  | missingDependency
  /-- `IndexError` from `l[0]` on the empty string read at end of stream, or
  `ValueError` from `int(l)` on a non-integer sentinel line, both raised while
  parsing the ASCII (PGM) header. -/
  | parseError
  /-- `ValueError("unknown projection ...")` for a non-stereographic family. -/
  | unsupportedProjection
  /-- `KeyError` from a missing dictionary key. -/
  | keyError
  /-- `IndexError` from an out-of-range list index. -/
  | indexError
  /-- `ValueError` from `float()` or unpacking. -/
  | valueError
  /-- `UnboundLocalError` from reading a local variable never assigned. -/
  | unboundLocal
deriving DecidableEq, Repr

deriving instance DecidableEq for Except

/-- A Python string. -/
abbrev PyStr := List Char

/-- `str.strip()` (both-ends whitespace removal). -/
def pyStrip (s : PyStr) : PyStr :=
  ((s.dropWhile Char.isWhitespace).reverse.dropWhile Char.isWhitespace).reverse

/-- `str.split(sep)` for a one-character separator: splits at every occurrence
and keeps empty pieces, so that `"a  b".split(" ") == ["a", "", "b"]` and
`"".split(" ") == [""]`. -/
def pySplit (sep : Char) : PyStr → List PyStr
  | [] => [[]]
  | c :: cs =>
    if c = sep then [] :: pySplit sep cs
    else
      match pySplit sep cs with
      | [] => [[c]]
      | t :: ts => (c :: t) :: ts

/-- All characters are ASCII digits and there is at least one. -/
def pyAllDigits (ds : PyStr) : Bool :=
  !ds.isEmpty && ds.all Char.isDigit

/-- Numeric value of a digit string. -/
def pyDigitsVal (ds : PyStr) : ℕ :=
  ds.foldl (fun a c => 10 * a + (c.toNat - 48)) 0

/-- `int(s)`: strip whitespace, optional sign, digits; `ValueError` otherwise
(classified as `parseError`, the header's sentinel line not being an integer). -/
def pyInt (s : PyStr) : Except PyErr ℤ :=
  match pyStrip s with
  | '-' :: ds =>
    if pyAllDigits ds then Except.ok (-(pyDigitsVal ds : ℤ)) else Except.error PyErr.parseError
  | '+' :: ds =>
    if pyAllDigits ds then Except.ok ((pyDigitsVal ds : ℤ)) else Except.error PyErr.parseError
  | ds =>
    if pyAllDigits ds then Except.ok ((pyDigitsVal ds : ℤ)) else Except.error PyErr.parseError

/-- `float(s)` restricted to the decimal forms `[sign]digits[.digits]` and
`[sign].digits` that the PGM headers carry (exponent forms are not modelled). -/
def pyFloat (s : PyStr) : Except PyErr ℚ :=
  let t := pyStrip s
  let signBody : Bool × PyStr :=
    match t with
    | '-' :: b => (true, b)
    | '+' :: b => (false, b)
    | b => (false, b)
  match pySplit '.' signBody.2 with
  | [ip] =>
    if pyAllDigits ip then
      Except.ok (if signBody.1 then -(pyDigitsVal ip : ℚ) else (pyDigitsVal ip : ℚ))
    else Except.error PyErr.valueError
  | [ip, fp] =>
    if (pyAllDigits ip || ip.isEmpty) && (pyAllDigits fp || fp.isEmpty)
        && !(ip.isEmpty && fp.isEmpty) then
      let q : ℚ := (pyDigitsVal ip : ℚ) + (pyDigitsVal fp : ℚ) / (10 : ℚ) ^ fp.length
      Except.ok (if signBody.1 then -q else q)
    else Except.error PyErr.valueError
  | _ => Except.error PyErr.valueError

/-- First character of a line as Python sees it: a stored line never includes
its trailing newline, so Python's `l[0]` on a mid-file empty line is the
newline character. Callers model the end-of-stream `""` (where `l[0]` raises
`IndexError`) separately. -/
def lineFirstChar (l : PyStr) : Char :=
  match l with
  | [] => '\n'
  | c :: _ => c

/-- `f.readline()`: pop the next line, or return the empty string at EOF. -/
def pyReadline (ls : List PyStr) : PyStr × List PyStr :=
  match ls with
  | [] => ([], [])
  | l :: rest => (l, rest)

/-- `d[k] = v` on a Python dict kept as an insertion-ordered association list:
replace the value if the key is present, append otherwise. -/
def dictSet (md : List (PyStr × List PyStr)) (k : PyStr) (v : List PyStr) :
    List (PyStr × List PyStr) :=
  if md.any (fun p => p.1 = k) then md.map (fun p => if p.1 = k then (k, v) else p)
  else md ++ [(k, v)]

/-- `d[k]` on a Python dict: the stored value, or `KeyError`. -/
def dictGet (md : List (PyStr × List PyStr)) (k : PyStr) : Except PyErr (List PyStr) :=
  match md.find? (fun p => p.1 = k) with
  | some p => Except.ok p.2
  | none => Except.error PyErr.keyError

/-- `l[n]` on a Python list: the element, or `IndexError`. -/
def pyIndex {α : Type} (l : List α) (n : ℕ) : Except PyErr α :=
  match l[n]? with
  | some a => Except.ok a
  | none => Except.error PyErr.indexError

theorem exceptBindOk {α β ε : Type} (a : α) (f : α → Except ε β) :
    (Except.ok a >>= f) = f a := rfl

theorem exceptBindErr {α β ε : Type} (e : ε) (f : α → Except ε β) :
    ((Except.error e : Except ε α) >>= f) = Except.error e := rfl

/-! ## `_import_pgm_metadata` -/

/-- The first loop of `_import_pgm_metadata`: read lines while `l[0] != '#'`.
Returns the first comment line and the lines after it; at end of stream
`readline` yields `""` and `l[0]` raises (`parseError`). -/
def pgmSkipPreamble : List PyStr → Except PyErr (PyStr × List PyStr)
  | [] => Except.error PyErr.parseError
  | l :: ls =>
    if lineFirstChar l = '#' then Except.ok (l, ls)
    else pgmSkipPreamble ls

/-- The second loop of `_import_pgm_metadata`: while `l[0] == '#'`, split
`l[1:].strip()` on spaces, store `key -> values` when at least two tokens are
present, and read the next line. Returns the accumulated dictionary and the
lines remaining after the first non-comment line; at end of stream the loop
condition `l[0]` on `""` raises (`parseError`). -/
def pgmCommentsLoop : List PyStr → PyStr → List (PyStr × List PyStr) →
    Except PyErr (List (PyStr × List PyStr) × List PyStr)
  | [], l, acc =>
    if lineFirstChar l = '#' then Except.error PyErr.parseError
    else Except.ok (acc, [])
  | l2 :: ls2, l, acc =>
    if lineFirstChar l = '#' then
      let x := pySplit ' ' (pyStrip (l.drop 1))
      let acc2 := if 2 ≤ x.length then dictSet acc (x.headD []) x.tail else acc
      pgmCommentsLoop ls2 l2 acc2
    else Except.ok (acc, l2 :: ls2)

/-- The metadata dictionary built by `_import_pgm_metadata`: the header
entries, the integer missing-value sentinel, and the fixed institution,
timestep and unit set after parsing. -/
structure PgmMetadata where
  entries : List (PyStr × List PyStr)
  missingval : ℤ
  institution : PyStr
  timestep : ℕ
  unit : PyStr
deriving DecidableEq, Repr

/-- `_import_pgm_metadata` over the line stream of the (optionally gunzipped)
file: skip the preamble, consume the comment block, then read one more line
and parse it with `int` as the missing-value sentinel. -/
def pgmMetadata (lines : List PyStr) : Except PyErr PgmMetadata := do
  let s ← pgmSkipPreamble lines
  let r ← pgmCommentsLoop s.2 s.1 []
  let mv ← pyInt (pyReadline r.2).1
  Except.ok { entries := r.1, missingval := mv,
              institution := "Finnish Meteorological Institute".data,
              timestep := 5, unit := "dBZ".data }

/-! ## `_import_pgm_geodata` and `import_pgm` -/

/-- The georeferencing dictionary shared by the importers. -/
structure Geodata where
  projection : PyStr
  x1 : ℚ
  y1 : ℚ
  x2 : ℚ
  y2 : ℚ
  xpixelsize : ℚ
  ypixelsize : ℚ
  yorigin : PyStr
deriving DecidableEq

/-- `ll_lon,ll_lat = [float(v) for v in ...]`: parse every token with `float`,
then unpack a two-element list (`ValueError` otherwise). -/
def pyFloatPair (vs : List PyStr) : Except PyErr (ℚ × ℚ) := do
  let qs ← vs.mapM pyFloat
  match qs with
  | [a, b] => Except.ok (a, b)
  | _ => Except.error PyErr.valueError

/-- `_import_pgm_geodata`: reject any projection family other than
`stereographic`, assemble the PROJ.4 string from the header values and the
hard-coded constants, reproject both corners with the projection capability
`pr` (the external `pyproj.Proj` object), and read the pixel sizes.

The reprojection itself is an external library capability; it enters the model
as the parameter `pr`. -/
def pgmGeodata (pr : ℚ × ℚ → ℚ × ℚ) (md : List (PyStr × List PyStr)) :
    Except PyErr Geodata := do
  let ty ← dictGet md "type".data
  let ty0 ← pyIndex ty 0
  if ty0 ≠ "stereographic".data then
    Except.error PyErr.unsupportedProjection
  else do
    let clon ← dictGet md "centrallongitude".data
    let clon0 ← pyIndex clon 0
    let clat ← dictGet md "centrallatitude".data
    let clat0 ← pyIndex clat 0
    let tlat ← dictGet md "truelatitude".data
    let tlat0 ← pyIndex tlat 0
    let projdef := "+proj=stere ".data ++ " +lon_0=".data ++ clon0 ++ "E".data
      ++ " +lat_0=".data ++ clat0 ++ "N".data
      ++ " +lat_ts=".data ++ tlat0
      ++ " +a=6371288".data ++ " +x_0=380886.310".data ++ " +y_0=3395677.920".data
      ++ " +no_defs".data
    let bl ← dictGet md "bottomleft".data
    let llc ← pyFloatPair bl
    let tr ← dictGet md "topright".data
    let urc ← pyFloatPair tr
    let p1 := pr llc
    let p2 := pr urc
    let mx ← dictGet md "metersperpixel_x".data
    let mx0 ← pyIndex mx 0
    let xps ← pyFloat mx0
    let my ← dictGet md "metersperpixel_y".data
    let my0 ← pyIndex my 0
    let yps ← pyFloat my0
    Except.ok { projection := projdef, x1 := p1.1, y1 := p1.2, x2 := p2.1, y2 := p2.2,
                xpixelsize := xps, ypixelsize := yps, yorigin := "upper".data }

/-- Lines 80-83 of `import_pgm`: `MASK = R == missingval` and `R[MASK] = nan`
(the inner map to `Option`, `none` for `nan`), then `R = (R - 64.0) / 2.0`
(the affine map, under which `nan` cells stay `nan`, here via `Option.map`). -/
def pgmDecodeField (missingval : ℤ) (R : List (List ℤ)) : List (List (Option ℚ)) :=
  ((R.map (fun row => row.map (fun s => if s = missingval then none else some (s : ℚ)))).map
    (fun row => row.map (fun x => x.map (fun v => (v - 64) / 2))))

/-- `import_pgm`: fail with the missing-dependency condition when `pyproj` is
absent, otherwise parse the header, decode the raster (`imread` is the raster
argument), derive the geodata and rescale the field. -/
def import_pgm (pyproj_imported : Bool) (pr : ℚ × ℚ → ℚ × ℚ)
    (lines : List PyStr) (raster : List (List ℤ)) :
    Except PyErr (List (List (Option ℚ)) × Geodata × PgmMetadata) :=
  if pyproj_imported = false then Except.error PyErr.missingDependency
  else do
    let metadata ← pgmMetadata lines
    let R := raster
    let geodata ← pgmGeodata pr metadata.entries
    Except.ok (pgmDecodeField metadata.missingval R, geodata, metadata)

/-! ## `import_aqc` -/

/-- The fixed metadata dictionary shape shared by the AQC and BoM importers. -/
structure ImporterMetadata where
  institution : PyStr
  timestep : ℕ
  unit : PyStr
deriving DecidableEq

/-- The reflectivity-to-rate formula of the AQC lookup table:
`(10.**((i - 71.2)/20.0)/A)**(1.0/b)*60/5` with `A = 316.0`, `b = 1.5`. -/
noncomputable def aqcFormula (i : ℕ) : ℝ :=
  ((10 : ℝ) ^ (((i : ℝ) - 71.2) / 20) / 316) ^ ((1 : ℝ) / 1.5) * 60 / 5

/-- Entry `i` of the 256-entry AQC lookup table (`lut`), as built by the loop
in `import_aqc`: zero below 2 and for 251-254, `nan` (modelled `none`) at 255,
the rate formula otherwise. -/
noncomputable def aqcLut (i : ℕ) : Option ℝ :=
  if i < 2 ∨ (250 < i ∧ i < 255) then some 0
  else if i = 255 then none
  else some (aqcFormula i)

/-- `R = lut[B]`: elementwise lookup of the raw 8-bit indices. -/
noncomputable def applyLut (B : List (List (Fin 256))) : List (List (Option ℝ)) :=
  B.map (fun row => row.map (fun p => aqcLut p.val))

/-- `_import_aqc_geodata`: everything is hard-coded. -/
def aqcGeodata : Geodata :=
  { projection := "+proj=somerc ".data ++ " +lon_0=7.439583333333333".data
      ++ " +lat_0=46.95240555555556".data ++ " +k_0=1".data
      ++ " +x_0=600000".data ++ " +y_0=200000".data ++ " +ellps=bessel".data
      ++ " +towgs84=674.374,15.056,405.346,0,0,0,0".data ++ " +units=m".data
      ++ " +no_defs".data
    x1 := 255000, y1 := 160000, x2 := 965000, y2 := 480000
    xpixelsize := 1000, ypixelsize := 1000, yorigin := "upper".data }

/-- `import_aqc`: fail with the missing-dependency condition when `PIL` is
absent, otherwise decode the image (`Image.open` plus `np.array` is the index
raster argument `B`) through the lookup table. -/
noncomputable def import_aqc (pil_imported : Bool) (B : List (List (Fin 256))) :
    Except PyErr (List (List (Option ℝ)) × Geodata × ImporterMetadata) :=
  if pil_imported = false then Except.error PyErr.missingDependency
  else
    Except.ok (applyLut B, aqcGeodata,
      { institution := "MeteoSwiss".data, timestep := 5, unit := "mm/h".data })

/-! ## `import_bom_rf3` -/

/-- The `proj` variable of a BoM RF3 dataset. The numeric attributes are only
ever used through `str(...)` concatenation, so the model keeps their textual
rendering. -/
structure BomProjVar where
  grid_mapping_name : PyStr
  longitude_of_central_meridian : PyStr
  latitude_of_projection_origin : PyStr
  standard_parallel : PyStr × PyStr
deriving DecidableEq

/-- The variables of a BoM RF3 netCDF dataset that the importer reads: the
precipitation field (mm, as a 2-D rational array) and the `valid_time` and
`start_time` instants (epoch seconds), each absent when the variable is
missing from the file. -/
structure BomDataset where
  precipitation : Option (List (List ℚ))
  valid_time : Option ℤ
  start_time : Option ℤ
  proj : Option BomProjVar
deriving DecidableEq

/-- `_import_bom_rf3_data`. `datetime.utcfromtimestamp` subtraction followed
by `.seconds // 60` is `((valid - start) % 86400) / 60` on epoch seconds
(`timedelta.seconds` is the normalized nonnegative seconds-of-day component).
The local `time_step` is assigned only inside `if start_time is not None: if
valid_time is not None:`, yet `if time_step:` reads it unconditionally, so
when either instant is absent the read raises `UnboundLocalError`. -/
def bomRf3Data (ds : BomDataset) : Except PyErr (Option (List (List ℚ))) :=
  match ds.precipitation with
  | some precipitation =>
    let timeStepVar : Option ℤ :=
      match ds.start_time, ds.valid_time with
      | some st, some vt => some (((vt - st) % 86400) / 60)
      | _, _ => none
    (match timeStepVar with
     | none => Except.error PyErr.unboundLocal
     | some time_step =>
       if time_step ≠ 0 then
         let factor_rain : ℚ := 60 / (time_step : ℚ)
         Except.ok (some (precipitation.map (fun row => row.map (fun x => x * factor_rain))))
       else Except.ok (some precipitation))
  | none => Except.ok none

/-- `_import_bom_rf3_geodata`. The local `projdef` is assigned only inside the
`if 'proj' in ...` branch, so when the `proj` variable is absent the final
`return projdef` raises `UnboundLocalError`. -/
def bomRf3Geodata (ds : BomDataset) : Except PyErr (Option PyStr) :=
  match ds.proj with
  | some projection =>
    if projection.grid_mapping_name = "albers_conical_equal_area".data then
      Except.ok (some ("+proj=aea ".data
        ++ " +lon_0=".data ++ projection.longitude_of_central_meridian
        ++ " +lat_0=".data ++ projection.latitude_of_projection_origin
        ++ " +lat_1=".data ++ projection.standard_parallel.1
        ++ " +lat_2=".data ++ projection.standard_parallel.2))
    else Except.ok none
  | none => Except.error PyErr.unboundLocal

/-- `_import_bom_rf3_metadata`: fixed values. -/
def bomRf3Metadata : ImporterMetadata :=
  { institution := "Bureau of Meteorology".data, timestep := 0, unit := "mm/h".data }

/-- `import_bom_rf3`: fail with the missing-dependency condition when
`netCDF4` is absent, otherwise read the field, the geodata and the metadata
from the dataset. -/
def import_bom_rf3 (netcdf4_imported : Bool) (ds : BomDataset) :
    Except PyErr (Option (List (List ℚ)) × Option PyStr × ImporterMetadata) :=
  if netcdf4_imported = false then Except.error PyErr.missingDependency
  else do
    let R ← bomRf3Data ds
    let geodata ← bomRf3Geodata ds
    Except.ok (R, geodata, bomRf3Metadata)

/-! ## Helper lemmas -/

theorem pgmSkipPreamble_append (pre rest : List PyStr)
    (hpre : ∀ l ∈ pre, lineFirstChar l ≠ '#') :
    pgmSkipPreamble (pre ++ rest) = pgmSkipPreamble rest := by
  induction pre with
  | nil => rfl
  | cons p ps ih =>
    have hp : lineFirstChar p ≠ '#' := hpre p (by simp)
    simp only [List.cons_append, pgmSkipPreamble, if_neg hp]
    exact ih (fun l hl => hpre l (by simp [hl]))

theorem pgmCommentsLoop_all_comments (post : List PyStr) :
    ∀ (l : PyStr) (acc : List (PyStr × List PyStr)),
      lineFirstChar l = '#' → (∀ x ∈ post, lineFirstChar x = '#') →
      pgmCommentsLoop post l acc = Except.error PyErr.parseError := by
  induction post with
  | nil =>
    intro l acc hl _
    simp [pgmCommentsLoop, hl]
  | cons p ps ih =>
    intro l acc hl hall
    simp only [pgmCommentsLoop, if_pos hl]
    exact ih p _ (hall p (by simp)) (fun x hx => hall x (by simp [hx]))

theorem pgmCommentsLoop_stop (ls : List PyStr) (l : PyStr)
    (acc : List (PyStr × List PyStr)) (hl : lineFirstChar l ≠ '#') :
    pgmCommentsLoop ls l acc = Except.ok (acc, ls) := by
  cases ls <;> simp [pgmCommentsLoop, hl]

theorem pgmCommentsLoop_exits (cs : List PyStr) :
    ∀ (l : PyStr) (acc : List (PyStr × List PyStr)) (nc : PyStr) (rest : List PyStr),
      lineFirstChar l = '#' → (∀ x ∈ cs, lineFirstChar x = '#') →
      lineFirstChar nc ≠ '#' →
      ∃ md, pgmCommentsLoop (cs ++ nc :: rest) l acc = Except.ok (md, rest) := by
  induction cs with
  | nil =>
    intro l acc nc rest hl _ hnc
    simp only [List.nil_append, pgmCommentsLoop, if_pos hl]
    exact ⟨_, pgmCommentsLoop_stop rest nc _ hnc⟩
  | cons c2 cs2 ih =>
    intro l acc nc rest hl hcs hnc
    simp only [List.cons_append, pgmCommentsLoop, if_pos hl]
    exact ih c2 _ nc rest (hcs c2 (by simp)) (fun x hx => hcs x (by simp [hx])) hnc

theorem aqcFormula_monotone {i j : ℕ} (h : i ≤ j) : aqcFormula i ≤ aqcFormula j := by
  unfold aqcFormula
  have h10 : (1 : ℝ) < 10 := by norm_num
  have hbase : (10 : ℝ) ^ (((i : ℝ) - 71.2) / 20) ≤ (10 : ℝ) ^ (((j : ℝ) - 71.2) / 20) := by
    rw [Real.rpow_le_rpow_left_iff h10]
    have hij : (i : ℝ) ≤ (j : ℝ) := Nat.cast_le.mpr h
    linarith
  have hdiv : (10 : ℝ) ^ (((i : ℝ) - 71.2) / 20) / 316 ≤
      (10 : ℝ) ^ (((j : ℝ) - 71.2) / 20) / 316 := by
    apply div_le_div_of_nonneg_right hbase
    norm_num
  have hpow : ((10 : ℝ) ^ (((i : ℝ) - 71.2) / 20) / 316) ^ ((1 : ℝ) / 1.5) ≤
      ((10 : ℝ) ^ (((j : ℝ) - 71.2) / 20) / 316) ^ ((1 : ℝ) / 1.5) := by
    apply Real.rpow_le_rpow ?h1 hdiv ?h2
    · positivity
    · norm_num
  linarith

/-! ## Claim theorems -/

/-- Claim C1: in `import_pgm`, every 8-bit sample equal to the header's
missing-value sentinel decodes to NaN (`none`) and every other sample `s`
decodes to `(s - 64) / 2` dBZ; with sentinel 255, the sample array
`[[64, 66], [255, 0]]` decodes to `[[0, 1], [NaN, -32]]`. -/
theorem pgm_decode_values :
    (∀ (missingval : ℤ) (R : List (List ℤ)) (r c : ℕ),
      ((pgmDecodeField missingval R)[r]?.bind (fun row => row[c]?)) =
        ((R[r]?.bind (fun row => row[c]?)).map
          (fun s => if s = missingval then none else some (((s : ℚ) - 64) / 2)))) ∧
    pgmDecodeField 255 [[64, 66], [255, 0]] = [[some 0, some 1], [none, some (-32)]] := by
  constructor
  · intro mv R r c
    unfold pgmDecodeField
    rw [List.getElem?_map, List.getElem?_map]
    cases hR : R[r]? with
    | none => rfl
    | some row =>
      simp only [Option.map_some', Option.some_bind, List.getElem?_map]
      cases hrow : row[c]? with
      | none => rfl
      | some s =>
        simp only [Option.map_some']
        by_cases h : s = mv <;> simp [h]
  · norm_num [pgmDecodeField]

/-- Claim C4: with the required external capability absent
(`pyproj` for `import_pgm`, `PIL` for `import_aqc`, `netCDF4` for
`import_bom_rf3`), each importer fails with the missing-dependency condition
whatever the file holds, i.e. before any file access. -/
theorem importers_missing_dependency :
    (∀ (pr : ℚ × ℚ → ℚ × ℚ) (lines : List PyStr) (raster : List (List ℤ)),
      import_pgm false pr lines raster = Except.error PyErr.missingDependency) ∧
    (∀ B : List (List (Fin 256)),
      import_aqc false B = Except.error PyErr.missingDependency) ∧
    (∀ ds : BomDataset,
      import_bom_rf3 false ds = Except.error PyErr.missingDependency) :=
  ⟨fun _ _ _ => rfl, fun _ => rfl, fun _ => rfl⟩

/-- Claim C2: the AQC decode table maps indices 0, 1 and 251-254 to `0.0`,
index 255 to NaN (`none`), and every other index `i` to
`((10^((i - 71.2)/20) / 316)^(1/1.5)) * 60/5`; and every pixel of the output
field is the table entry at the pixel's raw 8-bit index. -/
theorem aqc_lut_table_and_lookup :
    (∀ i : Fin 256, aqcLut i.val =
      if i.val = 0 ∨ i.val = 1 ∨ (251 ≤ i.val ∧ i.val ≤ 254) then some 0
      else if i.val = 255 then none
      else some (((10 : ℝ) ^ (((i.val : ℝ) - 71.2) / 20) / 316) ^ ((1 : ℝ) / 1.5) * 60 / 5)) ∧
    (∀ (B : List (List (Fin 256))) (r c : ℕ),
      ((applyLut B)[r]?.bind (fun row => row[c]?)) =
        ((B[r]?.bind (fun row => row[c]?)).map (fun p => aqcLut p.val))) := by
  constructor
  · intro i
    unfold aqcLut aqcFormula
    split_ifs <;> first | rfl | omega
  · intro B r c
    unfold applyLut
    rw [List.getElem?_map]
    cases hB : B[r]? with
    | none => rfl
    | some row =>
      simp only [Option.map_some', Option.some_bind, List.getElem?_map]

/-- Claim C9: in the AQC decode table, entry 0 is `0.0` and entry 255 is NaN
(`none`) independently of file content (the table is built from constants
alone), and the table is monotonically non-decreasing on indices 2..250. -/
theorem aqc_lut_endpoints_monotone :
    aqcLut 0 = some 0 ∧ aqcLut 255 = none ∧
    (∀ i j : ℕ, 2 ≤ i → i ≤ j → j ≤ 250 →
      ∃ x y : ℝ, aqcLut i = some x ∧ aqcLut j = some y ∧ x ≤ y) := by
  refine ⟨rfl, rfl, ?_⟩
  intro i j h2 hij h250
  have hi : aqcLut i = some (aqcFormula i) := by
    unfold aqcLut
    rw [if_neg (by omega), if_neg (by omega)]
  have hj : aqcLut j = some (aqcFormula j) := by
    unfold aqcLut
    rw [if_neg (by omega), if_neg (by omega)]
  exact ⟨_, _, hi, hj, aqcFormula_monotone hij⟩

theorem aqc_lut_endpoints_monotone_witness :
    ∃ x y : ℝ, aqcLut 2 = some x ∧ aqcLut 3 = some y ∧ x ≤ y :=
  aqc_lut_endpoints_monotone.2.2 2 3 (by norm_num) (by norm_num) (by norm_num)

/-- Claim C6: `_import_pgm_metadata` raises the parse-error condition, rather
than hanging or returning a partial result, both when the stream holds no
comment line before end-of-stream (`post = []`) and when the comment block is
never terminated before end-of-stream (`post` nonempty and all comments). -/
theorem pgm_metadata_eof_parse_error (pre post : List PyStr)
    (hpre : ∀ l ∈ pre, lineFirstChar l ≠ '#')
    (hpost : ∀ l ∈ post, lineFirstChar l = '#') :
    pgmMetadata (pre ++ post) = Except.error PyErr.parseError := by
  unfold pgmMetadata
  rw [pgmSkipPreamble_append pre post hpre]
  cases post with
  | nil => rfl
  | cons p ps =>
    have h1 : pgmSkipPreamble (p :: ps) = Except.ok (p, ps) := by
      simp [pgmSkipPreamble, hpost p (by simp)]
    have h2 := pgmCommentsLoop_all_comments ps p [] (hpost p (by simp))
      (fun x hx => hpost x (by simp [hx]))
    simp [h1, h2, exceptBindOk, exceptBindErr]

theorem pgm_metadata_eof_parse_error_witness :
    pgmMetadata (["P5".data] ++ ["# obstime 201609281600".data]) =
      Except.error PyErr.parseError :=
  pgm_metadata_eof_parse_error ["P5".data] ["# obstime 201609281600".data]
    (by decide) (by decide)

/-- Claim C7 counterexample: on the stream `["# a b", "10", "255"]` the first
non-comment line after the comment block is `"10"`, whose integer value is 10,
yet `_import_pgm_metadata` stores 255 — the sentinel is not taken from that
exact line, so the claim as stated fails. -/
theorem pgm_sentinel_first_line_counterexample :
    (pgmMetadata ["# a b".data, "10".data, "255".data]).map (fun m => m.missingval) =
      Except.ok 255 ∧
    lineFirstChar "# a b".data = '#' ∧ lineFirstChar "10".data ≠ '#' ∧
    pyInt "10".data = Except.ok 10 ∧ (255 : ℤ) ≠ 10 := by
  refine ⟨by decide, by decide, by decide, by decide, by decide⟩

/-- Claim C7 (amended): header extraction stops at the first non-comment line
`nc` after the comment block and interprets the line immediately after it
(`sent`) — not `nc` itself — as the integer missing-value sentinel stored in
the metadata. -/
theorem pgm_sentinel_after_first_noncomment (pre cs rest : List PyStr)
    (c nc sent : PyStr) (v : ℤ)
    (hpre : ∀ l ∈ pre, lineFirstChar l ≠ '#')
    (hc : lineFirstChar c = '#')
    (hcs : ∀ l ∈ cs, lineFirstChar l = '#')
    (hnc : lineFirstChar nc ≠ '#')
    (hv : pyInt sent = Except.ok v) :
    ∃ m : PgmMetadata,
      pgmMetadata (pre ++ c :: (cs ++ nc :: sent :: rest)) = Except.ok m ∧
      m.missingval = v := by
  unfold pgmMetadata
  rw [pgmSkipPreamble_append pre _ hpre]
  have h1 : pgmSkipPreamble (c :: (cs ++ nc :: sent :: rest)) =
      Except.ok (c, cs ++ nc :: sent :: rest) := by
    simp [pgmSkipPreamble, hc]
  obtain ⟨md, h2⟩ := pgmCommentsLoop_exits cs c [] nc (sent :: rest) hc hcs hnc
  simp only [h1, exceptBindOk, h2, pyReadline, hv]
  exact ⟨_, rfl, rfl⟩

theorem pgm_sentinel_after_first_noncomment_witness :
    ∃ m : PgmMetadata,
      pgmMetadata ([] ++ "# a b".data :: ([] ++ "2 2".data :: "255".data :: [])) =
        Except.ok m ∧ m.missingval = 255 :=
  pgm_sentinel_after_first_noncomment [] [] [] "# a b".data "2 2".data "255".data 255
    (by simp) (by decide) (by simp) (by decide) (by decide)

/-- Claim C8: `_import_pgm_geodata` fails with the unsupported-projection
condition whenever the extracted projection-family header value
(`metadata["type"][0]`) is anything other than the literal `stereographic`. -/
theorem pgm_geodata_unsupported_projection (pr : ℚ × ℚ → ℚ × ℚ)
    (md : List (PyStr × List PyStr)) (vs : List PyStr) (t : PyStr)
    (h1 : dictGet md "type".data = Except.ok vs)
    (h2 : pyIndex vs 0 = Except.ok t)
    (h3 : t ≠ "stereographic".data) :
    pgmGeodata pr md = Except.error PyErr.unsupportedProjection := by
  unfold pgmGeodata
  simp [h1, h2, h3, exceptBindOk]

theorem pgm_geodata_unsupported_projection_witness :
    pgmGeodata (fun p => p) [("type".data, ["mercator".data])] =
      Except.error PyErr.unsupportedProjection :=
  pgm_geodata_unsupported_projection (fun p => p) [("type".data, ["mercator".data])]
    ["mercator".data] "mercator".data (by decide) (by decide) (by decide)

/-- Claim C3: `_import_bom_rf3_data` rescales by `60 / timestep_minutes` when
both instants are present (`start = 0`, `valid = 300` seconds turn a 5 mm
field into 60 mm/h), but when one or both instants are absent the
unconditional `if time_step:` reads the never-assigned local `time_step` and
raises `UnboundLocalError` instead of returning the field unscaled. -/
theorem bom_rf3_timestep_unbound_local :
    bomRf3Data { precipitation := some [[5]], valid_time := some 300,
                 start_time := some 0, proj := none } = Except.ok (some [[60]]) ∧
    bomRf3Data { precipitation := some [[5]], valid_time := none,
                 start_time := some 0, proj := none } = Except.error PyErr.unboundLocal ∧
    bomRf3Data { precipitation := some [[5]], valid_time := some 300,
                 start_time := none, proj := none } = Except.error PyErr.unboundLocal ∧
    bomRf3Data { precipitation := some [[5]], valid_time := none,
                 start_time := none, proj := none } = Except.error PyErr.unboundLocal := by
  refine ⟨?_, rfl, rfl, rfl⟩
  norm_num [bomRf3Data]

/-- Claim C5: `_import_bom_rf3_data` yields a `None` field when the
`precipitation` variable is absent and `_import_bom_rf3_geodata` yields a
`None` projection for a non-albers family, both without error; but when the
`proj` variable itself is absent, `return projdef` reads a never-assigned
local and raises `UnboundLocalError` instead of returning `None`. -/
theorem bom_rf3_absent_variables :
    (∀ (vt st : Option ℤ) (pj : Option BomProjVar),
      bomRf3Data { precipitation := none, valid_time := vt, start_time := st,
                   proj := pj } = Except.ok none) ∧
    (∀ (p : Option (List (List ℚ))) (vt st : Option ℤ) (pv : BomProjVar),
      pv.grid_mapping_name ≠ "albers_conical_equal_area".data →
      bomRf3Geodata { precipitation := p, valid_time := vt, start_time := st,
                      proj := some pv } = Except.ok none) ∧
    (∀ (p : Option (List (List ℚ))) (vt st : Option ℤ),
      bomRf3Geodata { precipitation := p, valid_time := vt, start_time := st,
                      proj := none } = Except.error PyErr.unboundLocal) := by
  refine ⟨fun _ _ _ => rfl, ?_, fun _ _ _ => rfl⟩
  intro p vt st pv h
  simp [bomRf3Geodata, h]

/-- The non-albers `proj` variable used to exercise `bomRf3Geodata`. -/
def mercatorProjVar : BomProjVar :=
  { grid_mapping_name := "mercator".data,
    longitude_of_central_meridian := "1".data,
    latitude_of_projection_origin := "2".data,
    standard_parallel := ("3".data, "4".data) }

theorem bom_rf3_absent_variables_witness :
    bomRf3Geodata { precipitation := none, valid_time := none, start_time := none,
                    proj := some mercatorProjVar } = Except.ok none :=
  bom_rf3_absent_variables.2.1 none none none mercatorProjVar (by decide)

/-- Claim C10: when both instants are present but their elapsed whole-minute
difference is zero, `if time_step:` is falsy, so `_import_bom_rf3_data`
returns the field unscaled and the division `60./time_step` is never
evaluated. -/
theorem bom_rf3_zero_timestep_guard (ds : BomDataset) (p : List (List ℚ)) (st vt : ℤ)
    (h1 : ds.precipitation = some p) (h2 : ds.start_time = some st)
    (h3 : ds.valid_time = some vt) (h4 : ((vt - st) % 86400) / 60 = 0) :
    bomRf3Data ds = Except.ok (some p) := by
  obtain ⟨p0, vt0, st0, pj0⟩ := ds
  simp only at h1 h2 h3
  subst h1 h2 h3
  simp [bomRf3Data, h4]

theorem bom_rf3_zero_timestep_guard_witness :
    bomRf3Data { precipitation := some [[3]], valid_time := some 30,
                 start_time := some 0, proj := none } = Except.ok (some [[3]]) :=
  bom_rf3_zero_timestep_guard _ [[3]] 0 30 rfl rfl rfl (by decide)
